import Mathlib

/-!
Verification of the GEA GlucoFlow insulin-adjustment calculator.

The program is a single-file clinical decision-support tool. Its computational
core is two pure functions, `get_deltas` (mapping an insulin flow rate to a
pair of adjustment magnitudes) and `calculate_insulin_adjustment` (the
protocol engine mapping the three patient inputs to a structured
recommendation). Both are embedded here over the rationals: every numeric
value handled by the program is a small decimal, and every branch condition is
an order comparison, so ℚ reproduces the control flow exactly.

String fields of the output record are reproduced as well. Python f-string
number formatting (`%.0f`, `%.1f`, `%+.0f`) is mirrored by `fmtF0`, `fmtF1`
and `fmtPlus0`; they agree with Python except for the tie-breaking rule at
exact half-way values (Python rounds half to even, `round` rounds half up) and
the sign of a negative zero, neither of which any branch condition or claim
depends on. The `new_flow_rate_info` field is kept structured (one constructor
per f-string template of the source, carrying its numeric argument) so that
theorems can speak about the recommended numeric flow, which the source
exposes only inside that string. Each branch of the source's protocol is a
named record-valued definition here, and `calculate_insulin_adjustment` holds
the source's control flow over them, one `if` per source condition.

The rational arithmetic operations are restored to their default transparency
below (the library ships them reducibility-restricted for performance only) so
that concrete runs of the embedded program reduce by `decide` and `rfl`.
-/

set_option allowUnsafeReducibility true

attribute [local semireducible] Rat.add Rat.sub Rat.mul Rat.inv Rat.ofScientific

/-- Threshold constant `GLUCOSE_TARGET_LOW_1 = 75.0` from the source. -/
def GLUCOSE_TARGET_LOW_1 : ℚ := 75

/-- Threshold constant `GLUCOSE_TARGET_LOW_2 = 100.0` from the source. -/
def GLUCOSE_TARGET_LOW_2 : ℚ := 100

/-- Threshold constant `GLUCOSE_TARGET_MID_1 = 140.0` from the source. -/
def GLUCOSE_TARGET_MID_1 : ℚ := 140

/-- Threshold constant `GLUCOSE_TARGET_MID_2 = 200.0` from the source. -/
def GLUCOSE_TARGET_MID_2 : ℚ := 200

/-- Pause duration constant `PAUSE_DURATION_MINUTES = 30` from the source. -/
def PAUSE_DURATION_MINUTES : ℕ := 30

/-- Input record `InsulinCalculatorFormData` from the source. -/
structure InsulinCalculatorFormData where
  currentGlucose : ℚ
  previousGlucose : ℚ
  currentInsulinFlow : ℚ
deriving DecidableEq, Repr

/-- The adjustment-magnitude pair, record `Deltas` from the source. -/
structure Deltas where
  delta1 : ℚ
  delta2 : ℚ
deriving DecidableEq, Repr

/-- The four visual-emphasis values of the output field the source calls
`colorClass` (the spec calls it severity): one of the string literals
"success", "info", "warning", "error". -/
inductive Severity where
  | success
  | info
  | warning
  | error
deriving DecidableEq, Repr

/-- The `new_flow_rate_info` strings of the source, kept structured: each
constructor is one f-string template of the source together with its numeric
argument.
* `na` is the literal "N/A";
* `maintainDefault q` is the default f"Mantener flujo: {q:.1f} cc/h";
* `suspend q` is f"Nuevo flujo sugerido: {q:.1f} cc/h (SUSPENDER)";
* `maintain q` is f"Mantener: {q:.1f}" (the hold branches);
* `newRate q` is f"Nuevo: {q:.1f}" (increase and single-delta decrease);
* `postPause q` is f"Post-pausa: {q:.1f}" (pause-then-adjust branches). -/
inductive FlowRateInfo where
  | na
  | maintainDefault (q : ℚ)
  | suspend (q : ℚ)
  | maintain (q : ℚ)
  | newRate (q : ℚ)
  | postPause (q : ℚ)
deriving DecidableEq, Repr

/-- Output record `InsulinRecommendation` from the source. The field the
source calls `colorClass` is named `severity` here (its four string values
become the closed enum `Severity`); `newFlowRateInfo` is kept structured as
`FlowRateInfo`. All other fields are the source strings. -/
structure InsulinRecommendation where
  actionTitle : String
  details : List String
  newFlowRateInfo : FlowRateInfo
  originalFlowRateInfo : String
  calculationSummary : Option String
  isCritical : Bool
  severity : Severity
  icon : String
deriving DecidableEq, Repr

/-- Mirrors Python `%.0f` formatting: round to the nearest integer and print
it (ties differ from Python's round-half-even; no branch depends on this). -/
def fmtF0 (q : ℚ) : String := toString (round q)

/-- Mirrors Python `%.1f` formatting: round `10 · q` to the nearest integer
and print with one decimal place. -/
def fmtF1 (q : ℚ) : String :=
  let n : ℤ := round (q * 10)
  (if n < 0 then "-" else "") ++ toString (n.natAbs / 10) ++ "." ++ toString (n.natAbs % 10)

/-- Mirrors Python `%+.0f` formatting: like `fmtF0` but with an explicit
leading plus sign on non-negative values. -/
def fmtPlus0 (q : ℚ) : String :=
  let n : ℤ := round q
  (if 0 ≤ n then "+" else "") ++ toString n

/-- `get_deltas` from the source (lines 36-62): the flow-band table mapping
the current insulin flow (cc/h) to the adjustment pair. The source is a
sequence of independent `if ... return` statements, equivalent to this
if-else chain; the final `{0, 0}` return is the source's fallback line 62. -/
def get_deltas (current_flow : ℚ) : Deltas :=
  if current_flow < 4 then { delta1 := 1/2, delta2 := 1 }
  else if 4 ≤ current_flow ∧ current_flow < 13/2 then { delta1 := 1, delta2 := 2 }
  else if 13/2 ≤ current_flow ∧ current_flow < 10 then { delta1 := 3/2, delta2 := 3 }
  else if 10 ≤ current_flow ∧ current_flow < 15 then { delta1 := 2, delta2 := 4 }
  else if 15 ≤ current_flow ∧ current_flow < 20 then { delta1 := 3, delta2 := 6 }
  else if 20 ≤ current_flow ∧ current_flow < 25 then { delta1 := 4, delta2 := 8 }
  else if current_flow ≥ 25 then { delta1 := 5, delta2 := 10 }
  else { delta1 := 0, delta2 := 0 }

/-- The input-validation-error recommendation returned by the source at lines
82-91 when the basic validation fails. -/
def inputErrorRec : InsulinRecommendation :=
  { actionTitle := "ERROR EN DATOS"
    details := ["Verifique que los valores de glucosa sean positivos (> 0) y el flujo de insulina sea no negativo (>= 0)."]
    newFlowRateInfo := FlowRateInfo.na
    originalFlowRateInfo := "N/A"
    calculationSummary := none
    isCritical := true
    severity := Severity.error
    icon := "🚨" }

/-- The internal-error recommendation of the source's `except` handler (lines
99-108). In the source it is produced only if `get_deltas` raises, which a
pure total function over numbers cannot do, so `calculate_insulin_adjustment`
never constructs it; it is defined here so that its unreachability can be
stated. `errMsg` stands for the interpolated exception text `{e}`. -/
def internalErrorRec (current_insulin_flow : ℚ) (errMsg : String) : InsulinRecommendation :=
  { actionTitle := "ERROR INTERNO"
    details := ["Error calculando los deltas: " ++ errMsg, "Revise el flujo de insulina ingresado."]
    newFlowRateInfo := FlowRateInfo.na
    originalFlowRateInfo := "Flujo ingresado: " ++ fmtF1 current_insulin_flow ++ " cc/h"
    calculationSummary := none
    isCritical := true
    severity := Severity.error
    icon := "⚙️" }

/-- The pause-and-adjust action title, f-string of the source lines 140, 152,
166, 180 built from `PAUSE_DURATION_MINUTES`. -/
def pauseTitle : String :=
  "PAUSAR (" ++ toString PAUSE_DURATION_MINUTES ++ " min) Y AJUSTAR (2 Deltas)"

/-- The default recommendation assembled from the initial values of the
source's lines 110-119, returned unchanged when no protocol rule matched;
`s` is the calculation summary accumulated up to the fall-through point. -/
def defaultRec (current_insulin_flow : ℚ) (original_flow_rate_info s : String) :
    InsulinRecommendation :=
  { actionTitle := "Revisar Datos/Protocolo"
    details := ["Los valores ingresados no generaron una recomendación estándar. Verifique los datos o consulte el protocolo clínico."]
    newFlowRateInfo := FlowRateInfo.maintainDefault current_insulin_flow
    originalFlowRateInfo := original_flow_rate_info
    calculationSummary := some s
    isCritical := false
    severity := Severity.warning
    icon := "❓" }

/-- Band < 75 of the source (lines 124-130): hypoglycemia, suspend. -/
def hypoRec (current_glucose : ℚ)
    (original_flow_rate_info summary0 : String) : InsulinRecommendation :=
  { actionTitle := "¡HIPOGLUCEMIA!"
    details := ["Glucosa actual (" ++ fmtF0 current_glucose ++ ") < 75.0. CONSIDERAR SUSPENDER.",
      "Administrar carbohidratos según protocolo.", "Evaluar causa."]
    newFlowRateInfo := FlowRateInfo.suspend 0
    originalFlowRateInfo := original_flow_rate_info
    calculationSummary := some (summary0 ++ " Suspensión sugerida por hipoglucemia.")
    isCritical := true
    severity := Severity.error
    icon := "🚨" }

/-- Band [75,100), `glucose_change > 0` (source line 136): hold. -/
def low_holdRec (current_insulin_flow : ℚ) (original_flow_rate_info summary1 : String) :
    InsulinRecommendation :=
  { actionTitle := "CONTINUAR SIN CAMBIOS"
    details := ["Glucosa 75-99 y subiendo."]
    newFlowRateInfo := FlowRateInfo.maintain current_insulin_flow
    originalFlowRateInfo := original_flow_rate_info
    calculationSummary := some summary1
    isCritical := false
    severity := Severity.success
    icon := "✅" }

/-- Band [75,100), `0 ≥ glucose_change > -25` (source line 138): decrease by
`delta1`, floored at 0. -/
def low_dec1Rec (current_insulin_flow : ℚ) (deltas : Deltas)
    (original_flow_rate_info summary1 : String) : InsulinRecommendation :=
  let new_flow := max 0 (current_insulin_flow + (- deltas.delta1))
  { actionTitle := "DISMINUIR FLUJO (1 Delta)"
    details := ["Glucosa 75-99, estable o descenso < 25. Disminuir " ++ fmtF1 deltas.delta1 ++ "."]
    newFlowRateInfo := FlowRateInfo.newRate new_flow
    originalFlowRateInfo := original_flow_rate_info
    calculationSummary := some (summary1 ++ " Δ: -" ++ fmtF1 deltas.delta1 ++ ".")
    isCritical := false
    severity := Severity.info
    icon := "⬇️" }

/-- Band [75,100), `glucose_change ≤ -25` (source line 140): pause 30 min,
then decrease by `delta2`, floored at 0. -/
def low_pauseRec (current_insulin_flow : ℚ) (deltas : Deltas)
    (original_flow_rate_info summary1 : String) : InsulinRecommendation :=
  let new_flow_after_pause := max 0 (current_insulin_flow + (- deltas.delta2))
  { actionTitle := pauseTitle
    details := ["Glucosa 75-99, descenso >= 25.",
      "Pausar " ++ toString PAUSE_DURATION_MINUTES ++ " min.",
      "Reanudar y disminuir " ++ fmtF1 deltas.delta2 ++ "."]
    newFlowRateInfo := FlowRateInfo.postPause new_flow_after_pause
    originalFlowRateInfo := original_flow_rate_info
    calculationSummary := some (summary1 ++ " Pausa + Δ: -" ++ fmtF1 deltas.delta2 ++ ".")
    isCritical := true
    severity := Severity.warning
    icon := "⏸️⬇️" }

/-- Band [100,140), `glucose_change > 25` (source line 146): increase by
`delta1`, no cap. -/
def mid_inc1Rec (current_insulin_flow : ℚ) (deltas : Deltas)
    (original_flow_rate_info summary1 : String) : InsulinRecommendation :=
  { actionTitle := "AUMENTAR FLUJO (1 Delta)"
    details := ["Glucosa 100-139, aumento > 25. Aumentar " ++ fmtF1 deltas.delta1 ++ "."]
    newFlowRateInfo := FlowRateInfo.newRate (current_insulin_flow + deltas.delta1)
    originalFlowRateInfo := original_flow_rate_info
    calculationSummary := some (summary1 ++ " Δ: +" ++ fmtF1 deltas.delta1 ++ ".")
    isCritical := false
    severity := Severity.info
    icon := "⬆️" }

/-- Band [100,140), `-25 < glucose_change ≤ 25` (source line 148): hold. -/
def mid_holdRec (current_insulin_flow : ℚ) (original_flow_rate_info summary1 : String) :
    InsulinRecommendation :=
  { actionTitle := "CONTINUAR SIN CAMBIOS"
    details := ["Glucosa 100-139, cambio -25 a +25."]
    newFlowRateInfo := FlowRateInfo.maintain current_insulin_flow
    originalFlowRateInfo := original_flow_rate_info
    calculationSummary := some summary1
    isCritical := false
    severity := Severity.success
    icon := "✅" }

/-- Band [100,140), `-50 ≤ glucose_change ≤ -26` (source line 150): decrease
by `delta1`, floored at 0. -/
def mid_dec1Rec (current_insulin_flow : ℚ) (deltas : Deltas)
    (original_flow_rate_info summary1 : String) : InsulinRecommendation :=
  let new_flow := max 0 (current_insulin_flow + (- deltas.delta1))
  { actionTitle := "DISMINUIR FLUJO (1 Delta)"
    details := ["Glucosa 100-139, descenso 26-50. Disminuir " ++ fmtF1 deltas.delta1 ++ "."]
    newFlowRateInfo := FlowRateInfo.newRate new_flow
    originalFlowRateInfo := original_flow_rate_info
    calculationSummary := some (summary1 ++ " Δ: -" ++ fmtF1 deltas.delta1 ++ ".")
    isCritical := false
    severity := Severity.info
    icon := "⬇️" }

/-- Band [100,140), `glucose_change < -50` (source line 152): pause 30 min,
then decrease by `delta2`, floored at 0. -/
def mid_pauseRec (current_insulin_flow : ℚ) (deltas : Deltas)
    (original_flow_rate_info summary1 : String) : InsulinRecommendation :=
  let new_flow_after_pause := max 0 (current_insulin_flow + (- deltas.delta2))
  { actionTitle := pauseTitle
    details := ["Glucosa 100-139, descenso > 50.",
      "Pausar " ++ toString PAUSE_DURATION_MINUTES ++ " min.",
      "Reanudar y disminuir " ++ fmtF1 deltas.delta2 ++ "."]
    newFlowRateInfo := FlowRateInfo.postPause new_flow_after_pause
    originalFlowRateInfo := original_flow_rate_info
    calculationSummary := some (summary1 ++ " Pausa + Δ: -" ++ fmtF1 deltas.delta2 ++ ".")
    isCritical := true
    severity := Severity.warning
    icon := "⏸️⬇️" }

/-- Band [140,200), `glucose_change > 50` (source line 158): increase by
`delta2`, no cap. -/
def high_inc2Rec (current_insulin_flow : ℚ) (deltas : Deltas)
    (original_flow_rate_info summary1 : String) : InsulinRecommendation :=
  { actionTitle := "AUMENTAR FLUJO (2 Deltas)"
    details := ["Glucosa 140-199, aumento > 50. Aumentar " ++ fmtF1 deltas.delta2 ++ "."]
    newFlowRateInfo := FlowRateInfo.newRate (current_insulin_flow + deltas.delta2)
    originalFlowRateInfo := original_flow_rate_info
    calculationSummary := some (summary1 ++ " Δ: +" ++ fmtF1 deltas.delta2 ++ ".")
    isCritical := false
    severity := Severity.info
    icon := "⬆️⬆️" }

/-- Band [140,200), `0 ≤ glucose_change ≤ 50` (source line 160): increase by
`delta1`, no cap. -/
def high_inc1Rec (current_insulin_flow : ℚ) (deltas : Deltas)
    (original_flow_rate_info summary1 : String) : InsulinRecommendation :=
  { actionTitle := "AUMENTAR FLUJO (1 Delta)"
    details := ["Glucosa 140-199, aumento <= 50 o estable. Aumentar " ++ fmtF1 deltas.delta1 ++ "."]
    newFlowRateInfo := FlowRateInfo.newRate (current_insulin_flow + deltas.delta1)
    originalFlowRateInfo := original_flow_rate_info
    calculationSummary := some (summary1 ++ " Δ: +" ++ fmtF1 deltas.delta1 ++ ".")
    isCritical := false
    severity := Severity.info
    icon := "⬆️" }

/-- Band [140,200), `-49 < glucose_change < 0` (source line 162): hold. -/
def high_holdRec (current_insulin_flow : ℚ) (original_flow_rate_info summary1 : String) :
    InsulinRecommendation :=
  { actionTitle := "CONTINUAR SIN CAMBIOS"
    details := ["Glucosa 140-199, descenso < 50."]
    newFlowRateInfo := FlowRateInfo.maintain current_insulin_flow
    originalFlowRateInfo := original_flow_rate_info
    calculationSummary := some summary1
    isCritical := false
    severity := Severity.success
    icon := "✅" }

/-- Band [140,200), `-75 ≤ glucose_change ≤ -50` (source line 164): decrease
by `delta1`, floored at 0. -/
def high_dec1Rec (current_insulin_flow : ℚ) (deltas : Deltas)
    (original_flow_rate_info summary1 : String) : InsulinRecommendation :=
  let new_flow := max 0 (current_insulin_flow + (- deltas.delta1))
  { actionTitle := "DISMINUIR FLUJO (1 Delta)"
    details := ["Glucosa 140-199, descenso 50-75. Disminuir " ++ fmtF1 deltas.delta1 ++ "."]
    newFlowRateInfo := FlowRateInfo.newRate new_flow
    originalFlowRateInfo := original_flow_rate_info
    calculationSummary := some (summary1 ++ " Δ: -" ++ fmtF1 deltas.delta1 ++ ".")
    isCritical := false
    severity := Severity.info
    icon := "⬇️" }

/-- Band [140,200), `glucose_change < -75` (source line 166): pause 30 min,
then decrease by `delta2`, floored at 0. -/
def high_pauseRec (current_insulin_flow : ℚ) (deltas : Deltas)
    (original_flow_rate_info summary1 : String) : InsulinRecommendation :=
  let new_flow_after_pause := max 0 (current_insulin_flow + (- deltas.delta2))
  { actionTitle := pauseTitle
    details := ["Glucosa 140-199, descenso > 75.",
      "Pausar " ++ toString PAUSE_DURATION_MINUTES ++ " min.",
      "Reanudar y disminuir " ++ fmtF1 deltas.delta2 ++ "."]
    newFlowRateInfo := FlowRateInfo.postPause new_flow_after_pause
    originalFlowRateInfo := original_flow_rate_info
    calculationSummary := some (summary1 ++ " Pausa + Δ: -" ++ fmtF1 deltas.delta2 ++ ".")
    isCritical := true
    severity := Severity.warning
    icon := "⏸️⬇️" }

/-- Band ≥ 200, `glucose_change > 0` (source line 172): increase by `delta2`,
no cap. -/
def vhigh_inc2Rec (current_insulin_flow : ℚ) (deltas : Deltas)
    (original_flow_rate_info summary1 : String) : InsulinRecommendation :=
  { actionTitle := "AUMENTAR FLUJO (2 Deltas)"
    details := ["Glucosa >= 200 y subiendo. Aumentar " ++ fmtF1 deltas.delta2 ++ "."]
    newFlowRateInfo := FlowRateInfo.newRate (current_insulin_flow + deltas.delta2)
    originalFlowRateInfo := original_flow_rate_info
    calculationSummary := some (summary1 ++ " Δ: +" ++ fmtF1 deltas.delta2 ++ ".")
    isCritical := false
    severity := Severity.info
    icon := "⬆️⬆️" }

/-- Band ≥ 200, `-24 < glucose_change ≤ 0` (source line 174): increase by
`delta1`, no cap. -/
def vhigh_inc1Rec (current_insulin_flow : ℚ) (deltas : Deltas)
    (original_flow_rate_info summary1 : String) : InsulinRecommendation :=
  { actionTitle := "AUMENTAR FLUJO (1 Delta)"
    details := ["Glucosa >= 200, estable o descenso < 25. Aumentar " ++ fmtF1 deltas.delta1 ++ "."]
    newFlowRateInfo := FlowRateInfo.newRate (current_insulin_flow + deltas.delta1)
    originalFlowRateInfo := original_flow_rate_info
    calculationSummary := some (summary1 ++ " Δ: +" ++ fmtF1 deltas.delta1 ++ ".")
    isCritical := false
    severity := Severity.info
    icon := "⬆️" }

/-- Band ≥ 200, `-75 ≤ glucose_change ≤ -25` (source line 176): hold. -/
def vhigh_holdRec (current_insulin_flow : ℚ) (original_flow_rate_info summary1 : String) :
    InsulinRecommendation :=
  { actionTitle := "CONTINUAR SIN CAMBIOS"
    details := ["Glucosa >= 200, descenso 25-75."]
    newFlowRateInfo := FlowRateInfo.maintain current_insulin_flow
    originalFlowRateInfo := original_flow_rate_info
    calculationSummary := some summary1
    isCritical := false
    severity := Severity.success
    icon := "✅" }

/-- Band ≥ 200, `-100 ≤ glucose_change < -75` (source line 178): decrease by
`delta1`, floored at 0. -/
def vhigh_dec1Rec (current_insulin_flow : ℚ) (deltas : Deltas)
    (original_flow_rate_info summary1 : String) : InsulinRecommendation :=
  let new_flow := max 0 (current_insulin_flow + (- deltas.delta1))
  { actionTitle := "DISMINUIR FLUJO (1 Delta)"
    details := ["Glucosa >= 200, descenso 75-100. Disminuir " ++ fmtF1 deltas.delta1 ++ "."]
    newFlowRateInfo := FlowRateInfo.newRate new_flow
    originalFlowRateInfo := original_flow_rate_info
    calculationSummary := some (summary1 ++ " Δ: -" ++ fmtF1 deltas.delta1 ++ ".")
    isCritical := false
    severity := Severity.info
    icon := "⬇️" }

/-- Band ≥ 200, `glucose_change < -100` (source line 180): pause 30 min, then
decrease by `delta2`, floored at 0. -/
def vhigh_pauseRec (current_insulin_flow : ℚ) (deltas : Deltas)
    (original_flow_rate_info summary1 : String) : InsulinRecommendation :=
  let new_flow_after_pause := max 0 (current_insulin_flow + (- deltas.delta2))
  { actionTitle := pauseTitle
    details := ["Glucosa >= 200, descenso > 100.",
      "Pausar " ++ toString PAUSE_DURATION_MINUTES ++ " min.",
      "Reanudar y disminuir " ++ fmtF1 deltas.delta2 ++ "."]
    newFlowRateInfo := FlowRateInfo.postPause new_flow_after_pause
    originalFlowRateInfo := original_flow_rate_info
    calculationSummary := some (summary1 ++ " Pausa + Δ: -" ++ fmtF1 deltas.delta2 ++ ".")
    isCritical := true
    severity := Severity.warning
    icon := "⏸️⬇️" }

/-- The `original_flow_rate_info` string initialised at source line 117. -/
def originalFlowInfo (current_insulin_flow : ℚ) : String :=
  "Flujo actual: " ++ fmtF1 current_insulin_flow ++ " cc/h"

/-- The base `calculation_summary` string initialised at source line 119 from
the glucose change and the previous and current readings. -/
def summaryBase (current_glucose previous_glucose : ℚ) : String :=
  "Cambio de glucosa: " ++ fmtPlus0 (current_glucose - previous_glucose) ++ " mg/dL (" ++
    fmtF0 previous_glucose ++ " -> " ++ fmtF0 current_glucose ++ " mg/dL)."

/-- The band-range suffix appended to the summary on entering a bounded band
(source lines 134, 144, 156). -/
def summaryRange (s : String) (lo hi : ℚ) : String :=
  s ++ " Rango: " ++ fmtF0 lo ++ "-" ++ fmtF0 hi ++ "."

/-- The band-range suffix appended on entering the open-ended band (source
line 170). -/
def summaryRangeGE (s : String) (lo : ℚ) : String :=
  s ++ " Rango: >= " ++ fmtF0 lo ++ "."

/-- `calculate_insulin_adjustment` from the source (lines 64-188): validate,
derive the glucose change and the deltas, then select one glucose band and one
glucose-change sub-branch, each `if` below being one source condition in
source order; when no sub-branch of the selected band matches, the default
values initialised at source lines 110-119 (`defaultRec`, with the calculation
summary accumulated so far) are returned unchanged. The source's locals are
inlined: `glucose_change` is `data.currentGlucose - data.previousGlucose`, the
shared strings are `originalFlowInfo`/`summaryBase`/`summaryRange`. The
source's `try/except` around `get_deltas` is dead code over numeric inputs
(`get_deltas` only compares and returns literals) and has no counterpart here;
see `internalErrorRec`. -/
def calculate_insulin_adjustment (data : InsulinCalculatorFormData) : InsulinRecommendation :=
  if ¬ (data.currentGlucose > 0 ∧ data.previousGlucose > 0 ∧ data.currentInsulinFlow ≥ 0) then
    inputErrorRec
  -- 1. Hipoglucemia (< 75)
  else if data.currentGlucose < GLUCOSE_TARGET_LOW_1 then
    hypoRec data.currentGlucose (originalFlowInfo data.currentInsulinFlow)
      (summaryBase data.currentGlucose data.previousGlucose)
  -- 2. Rango Bajo-Normal (75-99)
  else if GLUCOSE_TARGET_LOW_1 ≤ data.currentGlucose ∧ data.currentGlucose < GLUCOSE_TARGET_LOW_2 then
    if data.currentGlucose - data.previousGlucose > 0 then
      low_holdRec data.currentInsulinFlow (originalFlowInfo data.currentInsulinFlow)
        (summaryRange (summaryBase data.currentGlucose data.previousGlucose)
          GLUCOSE_TARGET_LOW_1 GLUCOSE_TARGET_LOW_2)
    else if 0 ≥ data.currentGlucose - data.previousGlucose ∧
        data.currentGlucose - data.previousGlucose > -25 then
      low_dec1Rec data.currentInsulinFlow (get_deltas data.currentInsulinFlow)
        (originalFlowInfo data.currentInsulinFlow)
        (summaryRange (summaryBase data.currentGlucose data.previousGlucose)
          GLUCOSE_TARGET_LOW_1 GLUCOSE_TARGET_LOW_2)
    else if data.currentGlucose - data.previousGlucose ≤ -25 then
      low_pauseRec data.currentInsulinFlow (get_deltas data.currentInsulinFlow)
        (originalFlowInfo data.currentInsulinFlow)
        (summaryRange (summaryBase data.currentGlucose data.previousGlucose)
          GLUCOSE_TARGET_LOW_1 GLUCOSE_TARGET_LOW_2)
    else
      defaultRec data.currentInsulinFlow (originalFlowInfo data.currentInsulinFlow)
        (summaryRange (summaryBase data.currentGlucose data.previousGlucose)
          GLUCOSE_TARGET_LOW_1 GLUCOSE_TARGET_LOW_2)
  -- 3. Rango Objetivo (100-139)
  else if GLUCOSE_TARGET_LOW_2 ≤ data.currentGlucose ∧ data.currentGlucose < GLUCOSE_TARGET_MID_1 then
    if data.currentGlucose - data.previousGlucose > 25 then
      mid_inc1Rec data.currentInsulinFlow (get_deltas data.currentInsulinFlow)
        (originalFlowInfo data.currentInsulinFlow)
        (summaryRange (summaryBase data.currentGlucose data.previousGlucose)
          GLUCOSE_TARGET_LOW_2 GLUCOSE_TARGET_MID_1)
    else if -25 < data.currentGlucose - data.previousGlucose ∧
        data.currentGlucose - data.previousGlucose ≤ 25 then
      mid_holdRec data.currentInsulinFlow (originalFlowInfo data.currentInsulinFlow)
        (summaryRange (summaryBase data.currentGlucose data.previousGlucose)
          GLUCOSE_TARGET_LOW_2 GLUCOSE_TARGET_MID_1)
    else if -50 ≤ data.currentGlucose - data.previousGlucose ∧
        data.currentGlucose - data.previousGlucose ≤ -26 then
      mid_dec1Rec data.currentInsulinFlow (get_deltas data.currentInsulinFlow)
        (originalFlowInfo data.currentInsulinFlow)
        (summaryRange (summaryBase data.currentGlucose data.previousGlucose)
          GLUCOSE_TARGET_LOW_2 GLUCOSE_TARGET_MID_1)
    else if data.currentGlucose - data.previousGlucose < -50 then
      mid_pauseRec data.currentInsulinFlow (get_deltas data.currentInsulinFlow)
        (originalFlowInfo data.currentInsulinFlow)
        (summaryRange (summaryBase data.currentGlucose data.previousGlucose)
          GLUCOSE_TARGET_LOW_2 GLUCOSE_TARGET_MID_1)
    else
      defaultRec data.currentInsulinFlow (originalFlowInfo data.currentInsulinFlow)
        (summaryRange (summaryBase data.currentGlucose data.previousGlucose)
          GLUCOSE_TARGET_LOW_2 GLUCOSE_TARGET_MID_1)
  -- 4. Rango Alto (140-199)
  else if GLUCOSE_TARGET_MID_1 ≤ data.currentGlucose ∧ data.currentGlucose < GLUCOSE_TARGET_MID_2 then
    if data.currentGlucose - data.previousGlucose > 50 then
      high_inc2Rec data.currentInsulinFlow (get_deltas data.currentInsulinFlow)
        (originalFlowInfo data.currentInsulinFlow)
        (summaryRange (summaryBase data.currentGlucose data.previousGlucose)
          GLUCOSE_TARGET_MID_1 GLUCOSE_TARGET_MID_2)
    else if 0 ≤ data.currentGlucose - data.previousGlucose ∧
        data.currentGlucose - data.previousGlucose ≤ 50 then
      high_inc1Rec data.currentInsulinFlow (get_deltas data.currentInsulinFlow)
        (originalFlowInfo data.currentInsulinFlow)
        (summaryRange (summaryBase data.currentGlucose data.previousGlucose)
          GLUCOSE_TARGET_MID_1 GLUCOSE_TARGET_MID_2)
    else if -49 < data.currentGlucose - data.previousGlucose ∧
        data.currentGlucose - data.previousGlucose < 0 then
      high_holdRec data.currentInsulinFlow (originalFlowInfo data.currentInsulinFlow)
        (summaryRange (summaryBase data.currentGlucose data.previousGlucose)
          GLUCOSE_TARGET_MID_1 GLUCOSE_TARGET_MID_2)
    else if -75 ≤ data.currentGlucose - data.previousGlucose ∧
        data.currentGlucose - data.previousGlucose ≤ -50 then
      high_dec1Rec data.currentInsulinFlow (get_deltas data.currentInsulinFlow)
        (originalFlowInfo data.currentInsulinFlow)
        (summaryRange (summaryBase data.currentGlucose data.previousGlucose)
          GLUCOSE_TARGET_MID_1 GLUCOSE_TARGET_MID_2)
    else if data.currentGlucose - data.previousGlucose < -75 then
      high_pauseRec data.currentInsulinFlow (get_deltas data.currentInsulinFlow)
        (originalFlowInfo data.currentInsulinFlow)
        (summaryRange (summaryBase data.currentGlucose data.previousGlucose)
          GLUCOSE_TARGET_MID_1 GLUCOSE_TARGET_MID_2)
    else
      defaultRec data.currentInsulinFlow (originalFlowInfo data.currentInsulinFlow)
        (summaryRange (summaryBase data.currentGlucose data.previousGlucose)
          GLUCOSE_TARGET_MID_1 GLUCOSE_TARGET_MID_2)
  -- 5. Rango Muy Alto (>= 200)
  else if data.currentGlucose ≥ GLUCOSE_TARGET_MID_2 then
    if data.currentGlucose - data.previousGlucose > 0 then
      vhigh_inc2Rec data.currentInsulinFlow (get_deltas data.currentInsulinFlow)
        (originalFlowInfo data.currentInsulinFlow)
        (summaryRangeGE (summaryBase data.currentGlucose data.previousGlucose)
          GLUCOSE_TARGET_MID_2)
    else if -24 < data.currentGlucose - data.previousGlucose ∧
        data.currentGlucose - data.previousGlucose ≤ 0 then
      vhigh_inc1Rec data.currentInsulinFlow (get_deltas data.currentInsulinFlow)
        (originalFlowInfo data.currentInsulinFlow)
        (summaryRangeGE (summaryBase data.currentGlucose data.previousGlucose)
          GLUCOSE_TARGET_MID_2)
    else if -75 ≤ data.currentGlucose - data.previousGlucose ∧
        data.currentGlucose - data.previousGlucose ≤ -25 then
      vhigh_holdRec data.currentInsulinFlow (originalFlowInfo data.currentInsulinFlow)
        (summaryRangeGE (summaryBase data.currentGlucose data.previousGlucose)
          GLUCOSE_TARGET_MID_2)
    else if -100 ≤ data.currentGlucose - data.previousGlucose ∧
        data.currentGlucose - data.previousGlucose < -75 then
      vhigh_dec1Rec data.currentInsulinFlow (get_deltas data.currentInsulinFlow)
        (originalFlowInfo data.currentInsulinFlow)
        (summaryRangeGE (summaryBase data.currentGlucose data.previousGlucose)
          GLUCOSE_TARGET_MID_2)
    else if data.currentGlucose - data.previousGlucose < -100 then
      vhigh_pauseRec data.currentInsulinFlow (get_deltas data.currentInsulinFlow)
        (originalFlowInfo data.currentInsulinFlow)
        (summaryRangeGE (summaryBase data.currentGlucose data.previousGlucose)
          GLUCOSE_TARGET_MID_2)
    else
      defaultRec data.currentInsulinFlow (originalFlowInfo data.currentInsulinFlow)
        (summaryRangeGE (summaryBase data.currentGlucose data.previousGlucose)
          GLUCOSE_TARGET_MID_2)
  else
    defaultRec data.currentInsulinFlow (originalFlowInfo data.currentInsulinFlow)
      (summaryBase data.currentGlucose data.previousGlucose)

/-- The pause-and-adjust title as a plain string literal. -/
theorem pauseTitle_eq : pauseTitle = "PAUSAR (30 min) Y AJUSTAR (2 Deltas)" := rfl

/-- On invalid input the engine returns the input-error recommendation. -/
theorem calc_invalid_eq (data : InsulinCalculatorFormData)
    (hnv : ¬ (data.currentGlucose > 0 ∧ data.previousGlucose > 0 ∧
      data.currentInsulinFlow ≥ 0)) :
    calculate_insulin_adjustment data = inputErrorRec := by
  simp only [calculate_insulin_adjustment]
  rw [if_pos hnv]

/-- On valid input with glucose below 75 the engine returns the hypoglycemia
recommendation, with no sub-branching. -/
theorem calc_hypo_eq (data : InsulinCalculatorFormData)
    (hv : data.currentGlucose > 0 ∧ data.previousGlucose > 0 ∧ data.currentInsulinFlow ≥ 0)
    (hg : data.currentGlucose < 75) :
    calculate_insulin_adjustment data =
      hypoRec data.currentGlucose (originalFlowInfo data.currentInsulinFlow)
        (summaryBase data.currentGlucose data.previousGlucose) := by
  simp only [calculate_insulin_adjustment, GLUCOSE_TARGET_LOW_1]
  rw [if_neg (not_not_intro hv), if_pos hg]

/-- On valid input in band [75,100) the engine returns the hold, single-delta
decrease, or pause recommendation of that band; its fall-through default is
unreachable because the three sub-conditions cover every glucose change. -/
theorem calc_low_cases (data : InsulinCalculatorFormData)
    (hv : data.currentGlucose > 0 ∧ data.previousGlucose > 0 ∧ data.currentInsulinFlow ≥ 0)
    (hb : 75 ≤ data.currentGlucose ∧ data.currentGlucose < 100) :
    calculate_insulin_adjustment data =
      low_holdRec data.currentInsulinFlow (originalFlowInfo data.currentInsulinFlow)
        (summaryRange (summaryBase data.currentGlucose data.previousGlucose)
          GLUCOSE_TARGET_LOW_1 GLUCOSE_TARGET_LOW_2) ∨
    calculate_insulin_adjustment data =
      low_dec1Rec data.currentInsulinFlow (get_deltas data.currentInsulinFlow)
        (originalFlowInfo data.currentInsulinFlow)
        (summaryRange (summaryBase data.currentGlucose data.previousGlucose)
          GLUCOSE_TARGET_LOW_1 GLUCOSE_TARGET_LOW_2) ∨
    calculate_insulin_adjustment data =
      low_pauseRec data.currentInsulinFlow (get_deltas data.currentInsulinFlow)
        (originalFlowInfo data.currentInsulinFlow)
        (summaryRange (summaryBase data.currentGlucose data.previousGlucose)
          GLUCOSE_TARGET_LOW_1 GLUCOSE_TARGET_LOW_2) := by
  simp only [calculate_insulin_adjustment, GLUCOSE_TARGET_LOW_1, GLUCOSE_TARGET_LOW_2]
  rw [if_neg (not_not_intro hv), if_neg (by linarith [hb.1]), if_pos hb]
  by_cases h1 : data.currentGlucose - data.previousGlucose > 0
  · rw [if_pos h1]; exact Or.inl rfl
  · rw [if_neg h1]
    by_cases h2 : 0 ≥ data.currentGlucose - data.previousGlucose ∧
        data.currentGlucose - data.previousGlucose > -25
    · rw [if_pos h2]; exact Or.inr (Or.inl rfl)
    · rw [if_neg h2]
      have h3 : data.currentGlucose - data.previousGlucose ≤ -25 :=
        not_lt.mp (fun hlt => h2 ⟨not_lt.mp h1, hlt⟩)
      rw [if_pos h3]; exact Or.inr (Or.inr rfl)

/-- On valid input in band [100,140) the engine returns one of that band's
four sub-branch recommendations, or falls through to the default (the
sub-conditions leave the gap (-26, -25] uncovered). -/
theorem calc_mid_cases (data : InsulinCalculatorFormData)
    (hv : data.currentGlucose > 0 ∧ data.previousGlucose > 0 ∧ data.currentInsulinFlow ≥ 0)
    (hb : 100 ≤ data.currentGlucose ∧ data.currentGlucose < 140) :
    calculate_insulin_adjustment data =
      mid_inc1Rec data.currentInsulinFlow (get_deltas data.currentInsulinFlow)
        (originalFlowInfo data.currentInsulinFlow)
        (summaryRange (summaryBase data.currentGlucose data.previousGlucose)
          GLUCOSE_TARGET_LOW_2 GLUCOSE_TARGET_MID_1) ∨
    calculate_insulin_adjustment data =
      mid_holdRec data.currentInsulinFlow (originalFlowInfo data.currentInsulinFlow)
        (summaryRange (summaryBase data.currentGlucose data.previousGlucose)
          GLUCOSE_TARGET_LOW_2 GLUCOSE_TARGET_MID_1) ∨
    calculate_insulin_adjustment data =
      mid_dec1Rec data.currentInsulinFlow (get_deltas data.currentInsulinFlow)
        (originalFlowInfo data.currentInsulinFlow)
        (summaryRange (summaryBase data.currentGlucose data.previousGlucose)
          GLUCOSE_TARGET_LOW_2 GLUCOSE_TARGET_MID_1) ∨
    calculate_insulin_adjustment data =
      mid_pauseRec data.currentInsulinFlow (get_deltas data.currentInsulinFlow)
        (originalFlowInfo data.currentInsulinFlow)
        (summaryRange (summaryBase data.currentGlucose data.previousGlucose)
          GLUCOSE_TARGET_LOW_2 GLUCOSE_TARGET_MID_1) ∨
    calculate_insulin_adjustment data =
      defaultRec data.currentInsulinFlow (originalFlowInfo data.currentInsulinFlow)
        (summaryRange (summaryBase data.currentGlucose data.previousGlucose)
          GLUCOSE_TARGET_LOW_2 GLUCOSE_TARGET_MID_1) := by
  simp only [calculate_insulin_adjustment, GLUCOSE_TARGET_LOW_1, GLUCOSE_TARGET_LOW_2,
    GLUCOSE_TARGET_MID_1]
  rw [if_neg (not_not_intro hv), if_neg (by linarith [hb.1]),
    if_neg (by rintro ⟨hx, hy⟩; linarith [hb.1]), if_pos hb]
  by_cases h1 : data.currentGlucose - data.previousGlucose > 25
  · rw [if_pos h1]; exact Or.inl rfl
  · rw [if_neg h1]
    by_cases h2 : -25 < data.currentGlucose - data.previousGlucose ∧
        data.currentGlucose - data.previousGlucose ≤ 25
    · rw [if_pos h2]; exact Or.inr (Or.inl rfl)
    · rw [if_neg h2]
      by_cases h3 : -50 ≤ data.currentGlucose - data.previousGlucose ∧
          data.currentGlucose - data.previousGlucose ≤ -26
      · rw [if_pos h3]; exact Or.inr (Or.inr (Or.inl rfl))
      · rw [if_neg h3]
        by_cases h4 : data.currentGlucose - data.previousGlucose < -50
        · rw [if_pos h4]; exact Or.inr (Or.inr (Or.inr (Or.inl rfl)))
        · rw [if_neg h4]; exact Or.inr (Or.inr (Or.inr (Or.inr rfl)))

/-- On valid input in band [140,200) the engine returns one of that band's
five sub-branch recommendations, or falls through to the default (the
sub-conditions leave the gap (-50, -49] uncovered). -/
theorem calc_high_cases (data : InsulinCalculatorFormData)
    (hv : data.currentGlucose > 0 ∧ data.previousGlucose > 0 ∧ data.currentInsulinFlow ≥ 0)
    (hb : 140 ≤ data.currentGlucose ∧ data.currentGlucose < 200) :
    calculate_insulin_adjustment data =
      high_inc2Rec data.currentInsulinFlow (get_deltas data.currentInsulinFlow)
        (originalFlowInfo data.currentInsulinFlow)
        (summaryRange (summaryBase data.currentGlucose data.previousGlucose)
          GLUCOSE_TARGET_MID_1 GLUCOSE_TARGET_MID_2) ∨
    calculate_insulin_adjustment data =
      high_inc1Rec data.currentInsulinFlow (get_deltas data.currentInsulinFlow)
        (originalFlowInfo data.currentInsulinFlow)
        (summaryRange (summaryBase data.currentGlucose data.previousGlucose)
          GLUCOSE_TARGET_MID_1 GLUCOSE_TARGET_MID_2) ∨
    calculate_insulin_adjustment data =
      high_holdRec data.currentInsulinFlow (originalFlowInfo data.currentInsulinFlow)
        (summaryRange (summaryBase data.currentGlucose data.previousGlucose)
          GLUCOSE_TARGET_MID_1 GLUCOSE_TARGET_MID_2) ∨
    calculate_insulin_adjustment data =
      high_dec1Rec data.currentInsulinFlow (get_deltas data.currentInsulinFlow)
        (originalFlowInfo data.currentInsulinFlow)
        (summaryRange (summaryBase data.currentGlucose data.previousGlucose)
          GLUCOSE_TARGET_MID_1 GLUCOSE_TARGET_MID_2) ∨
    calculate_insulin_adjustment data =
      high_pauseRec data.currentInsulinFlow (get_deltas data.currentInsulinFlow)
        (originalFlowInfo data.currentInsulinFlow)
        (summaryRange (summaryBase data.currentGlucose data.previousGlucose)
          GLUCOSE_TARGET_MID_1 GLUCOSE_TARGET_MID_2) ∨
    calculate_insulin_adjustment data =
      defaultRec data.currentInsulinFlow (originalFlowInfo data.currentInsulinFlow)
        (summaryRange (summaryBase data.currentGlucose data.previousGlucose)
          GLUCOSE_TARGET_MID_1 GLUCOSE_TARGET_MID_2) := by
  simp only [calculate_insulin_adjustment, GLUCOSE_TARGET_LOW_1, GLUCOSE_TARGET_LOW_2,
    GLUCOSE_TARGET_MID_1, GLUCOSE_TARGET_MID_2]
  rw [if_neg (not_not_intro hv), if_neg (by linarith [hb.1]),
    if_neg (by rintro ⟨hx, hy⟩; linarith [hb.1]),
    if_neg (by rintro ⟨hx, hy⟩; linarith [hb.1]), if_pos hb]
  by_cases h1 : data.currentGlucose - data.previousGlucose > 50
  · rw [if_pos h1]; exact Or.inl rfl
  · rw [if_neg h1]
    by_cases h2 : 0 ≤ data.currentGlucose - data.previousGlucose ∧
        data.currentGlucose - data.previousGlucose ≤ 50
    · rw [if_pos h2]; exact Or.inr (Or.inl rfl)
    · rw [if_neg h2]
      by_cases h3 : -49 < data.currentGlucose - data.previousGlucose ∧
          data.currentGlucose - data.previousGlucose < 0
      · rw [if_pos h3]; exact Or.inr (Or.inr (Or.inl rfl))
      · rw [if_neg h3]
        by_cases h4 : -75 ≤ data.currentGlucose - data.previousGlucose ∧
            data.currentGlucose - data.previousGlucose ≤ -50
        · rw [if_pos h4]; exact Or.inr (Or.inr (Or.inr (Or.inl rfl)))
        · rw [if_neg h4]
          by_cases h5 : data.currentGlucose - data.previousGlucose < -75
          · rw [if_pos h5]; exact Or.inr (Or.inr (Or.inr (Or.inr (Or.inl rfl))))
          · rw [if_neg h5]; exact Or.inr (Or.inr (Or.inr (Or.inr (Or.inr rfl))))

/-- On valid input with glucose at least 200 the engine returns one of that
band's five sub-branch recommendations, or falls through to the default (the
sub-conditions leave the gap (-25, -24] uncovered). -/
theorem calc_vhigh_cases (data : InsulinCalculatorFormData)
    (hv : data.currentGlucose > 0 ∧ data.previousGlucose > 0 ∧ data.currentInsulinFlow ≥ 0)
    (hb : 200 ≤ data.currentGlucose) :
    calculate_insulin_adjustment data =
      vhigh_inc2Rec data.currentInsulinFlow (get_deltas data.currentInsulinFlow)
        (originalFlowInfo data.currentInsulinFlow)
        (summaryRangeGE (summaryBase data.currentGlucose data.previousGlucose)
          GLUCOSE_TARGET_MID_2) ∨
    calculate_insulin_adjustment data =
      vhigh_inc1Rec data.currentInsulinFlow (get_deltas data.currentInsulinFlow)
        (originalFlowInfo data.currentInsulinFlow)
        (summaryRangeGE (summaryBase data.currentGlucose data.previousGlucose)
          GLUCOSE_TARGET_MID_2) ∨
    calculate_insulin_adjustment data =
      vhigh_holdRec data.currentInsulinFlow (originalFlowInfo data.currentInsulinFlow)
        (summaryRangeGE (summaryBase data.currentGlucose data.previousGlucose)
          GLUCOSE_TARGET_MID_2) ∨
    calculate_insulin_adjustment data =
      vhigh_dec1Rec data.currentInsulinFlow (get_deltas data.currentInsulinFlow)
        (originalFlowInfo data.currentInsulinFlow)
        (summaryRangeGE (summaryBase data.currentGlucose data.previousGlucose)
          GLUCOSE_TARGET_MID_2) ∨
    calculate_insulin_adjustment data =
      vhigh_pauseRec data.currentInsulinFlow (get_deltas data.currentInsulinFlow)
        (originalFlowInfo data.currentInsulinFlow)
        (summaryRangeGE (summaryBase data.currentGlucose data.previousGlucose)
          GLUCOSE_TARGET_MID_2) ∨
    calculate_insulin_adjustment data =
      defaultRec data.currentInsulinFlow (originalFlowInfo data.currentInsulinFlow)
        (summaryRangeGE (summaryBase data.currentGlucose data.previousGlucose)
          GLUCOSE_TARGET_MID_2) := by
  simp only [calculate_insulin_adjustment, GLUCOSE_TARGET_LOW_1, GLUCOSE_TARGET_LOW_2,
    GLUCOSE_TARGET_MID_1, GLUCOSE_TARGET_MID_2]
  rw [if_neg (not_not_intro hv), if_neg (by linarith),
    if_neg (by rintro ⟨hx, hy⟩; linarith),
    if_neg (by rintro ⟨hx, hy⟩; linarith),
    if_neg (by rintro ⟨hx, hy⟩; linarith), if_pos hb]
  by_cases h1 : data.currentGlucose - data.previousGlucose > 0
  · rw [if_pos h1]; exact Or.inl rfl
  · rw [if_neg h1]
    by_cases h2 : -24 < data.currentGlucose - data.previousGlucose ∧
        data.currentGlucose - data.previousGlucose ≤ 0
    · rw [if_pos h2]; exact Or.inr (Or.inl rfl)
    · rw [if_neg h2]
      by_cases h3 : -75 ≤ data.currentGlucose - data.previousGlucose ∧
          data.currentGlucose - data.previousGlucose ≤ -25
      · rw [if_pos h3]; exact Or.inr (Or.inr (Or.inl rfl))
      · rw [if_neg h3]
        by_cases h4 : -100 ≤ data.currentGlucose - data.previousGlucose ∧
            data.currentGlucose - data.previousGlucose < -75
        · rw [if_pos h4]; exact Or.inr (Or.inr (Or.inr (Or.inl rfl)))
        · rw [if_neg h4]
          by_cases h5 : data.currentGlucose - data.previousGlucose < -100
          · rw [if_pos h5]; exact Or.inr (Or.inr (Or.inr (Or.inr (Or.inl rfl))))
          · rw [if_neg h5]; exact Or.inr (Or.inr (Or.inr (Or.inr (Or.inr rfl))))

/-- The final fallback line of `get_deltas` is unreachable: the seven band
conditions together cover every rational flow. -/
theorem get_deltas_bands_cover (q : ℚ) (h1 : ¬ q < 4)
    (h2 : ¬ (4 ≤ q ∧ q < 13/2)) (h3 : ¬ (13/2 ≤ q ∧ q < 10))
    (h4 : ¬ (10 ≤ q ∧ q < 15)) (h5 : ¬ (15 ≤ q ∧ q < 20))
    (h6 : ¬ (20 ≤ q ∧ q < 25)) (h7 : ¬ q ≥ 25) : False := by
  rw [not_lt] at h1
  have g2 : (13 : ℚ)/2 ≤ q := not_lt.mp (fun hlt => h2 ⟨h1, hlt⟩)
  have g3 : (10 : ℚ) ≤ q := not_lt.mp (fun hlt => h3 ⟨g2, hlt⟩)
  have g4 : (15 : ℚ) ≤ q := not_lt.mp (fun hlt => h4 ⟨g3, hlt⟩)
  have g5 : (20 : ℚ) ≤ q := not_lt.mp (fun hlt => h5 ⟨g4, hlt⟩)
  have g6 : (25 : ℚ) ≤ q := not_lt.mp (fun hlt => h6 ⟨g5, hlt⟩)
  exact h7 g6

/-- C1: for every input passing validation (currentGlucose > 0,
previousGlucose > 0, currentInsulinFlow ≥ 0) with currentGlucose < 75, the
engine returns the hypoglycemia recommendation: title "¡HIPOGLUCEMIA!", new
flow forced to 0.0 (suspend), isCritical true, severity error — for every
value of the glucose change, with no sub-branching on it. -/
theorem C1_hypoglycemia_band (data : InsulinCalculatorFormData)
    (hv : data.currentGlucose > 0 ∧ data.previousGlucose > 0 ∧ data.currentInsulinFlow ≥ 0)
    (hlow : data.currentGlucose < 75) :
    (calculate_insulin_adjustment data).actionTitle = "¡HIPOGLUCEMIA!" ∧
    (calculate_insulin_adjustment data).newFlowRateInfo = FlowRateInfo.suspend 0 ∧
    (calculate_insulin_adjustment data).isCritical = true ∧
    (calculate_insulin_adjustment data).severity = Severity.error := by
  rw [calc_hypo_eq data hv hlow]
  exact ⟨rfl, rfl, rfl, rfl⟩

/-- C1 witness: the spec's own example, glucose 70 after 90 at flow 5. -/
theorem C1_witness :
    ((70 : ℚ) > 0 ∧ (90 : ℚ) > 0 ∧ (5 : ℚ) ≥ 0) ∧ (70 : ℚ) < 75 ∧
    ((calculate_insulin_adjustment ⟨70, 90, 5⟩).actionTitle = "¡HIPOGLUCEMIA!" ∧
     (calculate_insulin_adjustment ⟨70, 90, 5⟩).newFlowRateInfo = FlowRateInfo.suspend 0 ∧
     (calculate_insulin_adjustment ⟨70, 90, 5⟩).isCritical = true ∧
     (calculate_insulin_adjustment ⟨70, 90, 5⟩).severity = Severity.error) :=
  ⟨by norm_num, by norm_num, C1_hypoglycemia_band ⟨70, 90, 5⟩ (by norm_num) (by norm_num)⟩

/-- C2 counterexample: on the negative flow -1, `get_deltas` does not return
the pair {0, 0}; the first band condition `flow < 4` already catches every
negative flow. -/
theorem C2_counterexample :
    ¬ (get_deltas (-1) = { delta1 := 0, delta2 := 0 }) := by decide

/-- C2 amended: for every negative input flow, `get_deltas` returns the
lowest band's pair {0.5, 1.0} (the `< 4` band), so the defensive {0, 0}
fallback is not what negative inputs produce. -/
theorem C2_negative_flow_first_band (flow : ℚ) (h : flow < 0) :
    get_deltas flow = { delta1 := 1/2, delta2 := 1 } := by
  unfold get_deltas
  rw [if_pos (by linarith)]

/-- C2 witness: the amended statement at flow -1. -/
theorem C2_witness : (-1 : ℚ) < 0 ∧ get_deltas (-1) = { delta1 := 1/2, delta2 := 1 } :=
  ⟨by norm_num, C2_negative_flow_first_band (-1) (by norm_num)⟩

/-- C4: `get_deltas` matches the band table at the spec's probe points
(3.9 = 39/10, 4.0, 6.4 = 32/5, 6.5 = 13/2, 9.9 = 99/10, 25.0, 999.0), and on
every non-negative flow the returned pair satisfies delta2 = 2 · delta1. -/
theorem C4_delta_table (flow : ℚ) (h : 0 ≤ flow) :
    get_deltas (39/10) = { delta1 := 1/2, delta2 := 1 } ∧
    get_deltas 4 = { delta1 := 1, delta2 := 2 } ∧
    get_deltas (32/5) = { delta1 := 1, delta2 := 2 } ∧
    get_deltas (13/2) = { delta1 := 3/2, delta2 := 3 } ∧
    get_deltas (99/10) = { delta1 := 3/2, delta2 := 3 } ∧
    get_deltas 25 = { delta1 := 5, delta2 := 10 } ∧
    get_deltas 999 = { delta1 := 5, delta2 := 10 } ∧
    (get_deltas flow).delta2 = 2 * (get_deltas flow).delta1 := by
  refine ⟨by decide, by decide, by decide, by decide, by decide, by decide, by decide, ?_⟩
  unfold get_deltas
  split_ifs <;> norm_num

/-- C4 witness: the doubling relation read off at flow 0. -/
theorem C4_witness :
    (0 : ℚ) ≤ 0 ∧ (get_deltas 0).delta2 = 2 * (get_deltas 0).delta1 :=
  ⟨le_refl 0, (C4_delta_table 0 (le_refl 0)).2.2.2.2.2.2.2⟩

set_option maxHeartbeats 2000000 in
/-- C8: `get_deltas` is total on non-negative flows — the result is always
one of the seven table pairs — and monotonically non-decreasing in both
fields as the flow increases. -/
theorem C8_deltas_total_monotone (a b : ℚ) (ha : 0 ≤ a) (hab : a ≤ b) :
    get_deltas a ∈ [({delta1 := 1/2, delta2 := 1} : Deltas), {delta1 := 1, delta2 := 2},
      {delta1 := 3/2, delta2 := 3}, {delta1 := 2, delta2 := 4}, {delta1 := 3, delta2 := 6},
      {delta1 := 4, delta2 := 8}, {delta1 := 5, delta2 := 10}] ∧
    (get_deltas a).delta1 ≤ (get_deltas b).delta1 ∧
    (get_deltas a).delta2 ≤ (get_deltas b).delta2 := by
  unfold get_deltas
  split_ifs <;> try (exfalso; first | exact get_deltas_bands_cover a ‹_› ‹_› ‹_› ‹_› ‹_› ‹_› ‹_› | exact get_deltas_bands_cover b ‹_› ‹_› ‹_› ‹_› ‹_› ‹_› ‹_›)
  all_goals refine ⟨by norm_num, ?_, ?_⟩ <;> (try norm_num) <;> linarith

/-- C8 witness: totality and monotonicity read off at flows 0 and 1. -/
theorem C8_witness :
    (0 : ℚ) ≤ 0 ∧ (0 : ℚ) ≤ 1 ∧
    (get_deltas 0 ∈ [({delta1 := 1/2, delta2 := 1} : Deltas), {delta1 := 1, delta2 := 2},
      {delta1 := 3/2, delta2 := 3}, {delta1 := 2, delta2 := 4}, {delta1 := 3, delta2 := 6},
      {delta1 := 4, delta2 := 8}, {delta1 := 5, delta2 := 10}] ∧
    (get_deltas 0).delta1 ≤ (get_deltas 1).delta1 ∧
    (get_deltas 0).delta2 ≤ (get_deltas 1).delta2) :=
  ⟨le_refl 0, by norm_num, C8_deltas_total_monotone 0 1 (le_refl 0) (by norm_num)⟩

/-- C6: for every input passing validation with glucose in [100, 140) and
glucose change strictly between -26 and -25, the engine returns the generic
default: title "Revisar Datos/Protocolo", severity warning, not critical,
flow left unchanged. -/
theorem C6_boundary_gap_default (data : InsulinCalculatorFormData)
    (hv : data.currentGlucose > 0 ∧ data.previousGlucose > 0 ∧ data.currentInsulinFlow ≥ 0)
    (hband : 100 ≤ data.currentGlucose ∧ data.currentGlucose < 140)
    (hgap : -26 < data.currentGlucose - data.previousGlucose ∧
            data.currentGlucose - data.previousGlucose < -25) :
    (calculate_insulin_adjustment data).actionTitle = "Revisar Datos/Protocolo" ∧
    (calculate_insulin_adjustment data).severity = Severity.warning ∧
    (calculate_insulin_adjustment data).isCritical = false ∧
    (calculate_insulin_adjustment data).newFlowRateInfo =
      FlowRateInfo.maintainDefault data.currentInsulinFlow := by
  obtain ⟨hb1, hb2⟩ := hband
  obtain ⟨hg1, hg2⟩ := hgap
  simp only [calculate_insulin_adjustment, GLUCOSE_TARGET_LOW_1, GLUCOSE_TARGET_LOW_2,
    GLUCOSE_TARGET_MID_1, GLUCOSE_TARGET_MID_2]
  rw [if_neg (not_not_intro hv), if_neg (by linarith), if_neg (by rintro ⟨h, h2⟩; linarith),
    if_pos ⟨hb1, hb2⟩, if_neg (by linarith), if_neg (by rintro ⟨h, h2⟩; linarith),
    if_neg (by rintro ⟨h, h2⟩; linarith), if_neg (by linarith)]
  exact ⟨rfl, rfl, rfl, rfl⟩

/-- C6 witness: the spec's boundary example, glucose 120 after 145.5 (change
-25.5) at flow 5. -/
theorem C6_witness :
    ((120 : ℚ) > 0 ∧ (291/2 : ℚ) > 0 ∧ (5 : ℚ) ≥ 0) ∧
    ((100 : ℚ) ≤ 120 ∧ (120 : ℚ) < 140) ∧
    ((-26 : ℚ) < 120 - 291/2 ∧ (120 : ℚ) - 291/2 < -25) ∧
    ((calculate_insulin_adjustment ⟨120, 291/2, 5⟩).actionTitle = "Revisar Datos/Protocolo" ∧
     (calculate_insulin_adjustment ⟨120, 291/2, 5⟩).severity = Severity.warning ∧
     (calculate_insulin_adjustment ⟨120, 291/2, 5⟩).isCritical = false ∧
     (calculate_insulin_adjustment ⟨120, 291/2, 5⟩).newFlowRateInfo =
       FlowRateInfo.maintainDefault 5) :=
  ⟨by norm_num, by norm_num, by norm_num,
    C6_boundary_gap_default ⟨120, 291/2, 5⟩ (by norm_num) (by norm_num) (by norm_num)⟩

/-- C10: for every input passing validation, a success-severity
recommendation always holds the flow: its flow info is the maintain form at
the entered flow. -/
theorem C10_success_is_hold (data : InsulinCalculatorFormData)
    (hv : data.currentGlucose > 0 ∧ data.previousGlucose > 0 ∧ data.currentInsulinFlow ≥ 0)
    (hs : (calculate_insulin_adjustment data).severity = Severity.success) :
    (calculate_insulin_adjustment data).newFlowRateInfo =
      FlowRateInfo.maintain data.currentInsulinFlow := by
  rcases lt_or_le data.currentGlucose 75 with hg | hg
  · rw [calc_hypo_eq data hv hg] at hs; simp [hypoRec] at hs
  · rcases lt_or_le data.currentGlucose 100 with hg2 | hg2
    · rcases calc_low_cases data hv ⟨hg, hg2⟩ with h | h | h <;> rw [h] at hs ⊢ <;>
        first | rfl | simp [hypoRec, low_dec1Rec, low_pauseRec, mid_inc1Rec, mid_dec1Rec, mid_pauseRec, high_inc2Rec, high_inc1Rec, high_dec1Rec, high_pauseRec, vhigh_inc2Rec, vhigh_inc1Rec, vhigh_dec1Rec, vhigh_pauseRec, defaultRec] at hs
    · rcases lt_or_le data.currentGlucose 140 with hg3 | hg3
      · rcases calc_mid_cases data hv ⟨hg2, hg3⟩ with h | h | h | h | h <;> rw [h] at hs ⊢ <;>
          first | rfl | simp [hypoRec, low_dec1Rec, low_pauseRec, mid_inc1Rec, mid_dec1Rec, mid_pauseRec, high_inc2Rec, high_inc1Rec, high_dec1Rec, high_pauseRec, vhigh_inc2Rec, vhigh_inc1Rec, vhigh_dec1Rec, vhigh_pauseRec, defaultRec] at hs
      · rcases lt_or_le data.currentGlucose 200 with hg4 | hg4
        · rcases calc_high_cases data hv ⟨hg3, hg4⟩ with h | h | h | h | h | h <;>
            rw [h] at hs ⊢ <;> first | rfl | simp [hypoRec, low_dec1Rec, low_pauseRec, mid_inc1Rec, mid_dec1Rec, mid_pauseRec, high_inc2Rec, high_inc1Rec, high_dec1Rec, high_pauseRec, vhigh_inc2Rec, vhigh_inc1Rec, vhigh_dec1Rec, vhigh_pauseRec, defaultRec] at hs
        · rcases calc_vhigh_cases data hv hg4 with h | h | h | h | h | h <;>
            rw [h] at hs ⊢ <;> first | rfl | simp [hypoRec, low_dec1Rec, low_pauseRec, mid_inc1Rec, mid_dec1Rec, mid_pauseRec, high_inc2Rec, high_inc1Rec, high_dec1Rec, high_pauseRec, vhigh_inc2Rec, vhigh_inc1Rec, vhigh_dec1Rec, vhigh_pauseRec, defaultRec] at hs

/-- C10 witness: glucose 110 after 100 at flow 3 (hold branch of the target
band, severity success). -/
theorem C10_witness :
    ((110 : ℚ) > 0 ∧ (100 : ℚ) > 0 ∧ (3 : ℚ) ≥ 0) ∧
    (calculate_insulin_adjustment ⟨110, 100, 3⟩).severity = Severity.success ∧
    (calculate_insulin_adjustment ⟨110, 100, 3⟩).newFlowRateInfo = FlowRateInfo.maintain 3 :=
  ⟨by norm_num, by decide, C10_success_is_hold ⟨110, 100, 3⟩ (by norm_num) (by decide)⟩

/-- C3: the engine returns the input-error recommendation (title "ERROR EN
DATOS", flow infos "N/A", no calculation summary, critical, severity error —
the fields of `inputErrorRec`) exactly when the validation predicate fails,
i.e. when not (currentGlucose > 0 and previousGlucose > 0 and
currentInsulinFlow ≥ 0). -/
theorem C3_input_error_iff (data : InsulinCalculatorFormData) :
    calculate_insulin_adjustment data = inputErrorRec ↔
      ¬ (data.currentGlucose > 0 ∧ data.previousGlucose > 0 ∧
        data.currentInsulinFlow ≥ 0) := by
  constructor
  · intro hI hv
    rcases lt_or_le data.currentGlucose 75 with hg | hg
    · rw [calc_hypo_eq data hv hg] at hI; simp [hypoRec, inputErrorRec] at hI
    · rcases lt_or_le data.currentGlucose 100 with hg2 | hg2
      · rcases calc_low_cases data hv ⟨hg, hg2⟩ with h | h | h <;> rw [h] at hI <;>
          simp [low_holdRec, low_dec1Rec, low_pauseRec, inputErrorRec] at hI
      · rcases lt_or_le data.currentGlucose 140 with hg3 | hg3
        · rcases calc_mid_cases data hv ⟨hg2, hg3⟩ with h | h | h | h | h <;> rw [h] at hI <;>
            simp [mid_inc1Rec, mid_holdRec, mid_dec1Rec, mid_pauseRec, defaultRec,
              inputErrorRec] at hI
        · rcases lt_or_le data.currentGlucose 200 with hg4 | hg4
          · rcases calc_high_cases data hv ⟨hg3, hg4⟩ with h | h | h | h | h | h <;>
              rw [h] at hI <;>
              simp [high_inc2Rec, high_inc1Rec, high_holdRec, high_dec1Rec, high_pauseRec,
                defaultRec, inputErrorRec] at hI
          · rcases calc_vhigh_cases data hv hg4 with h | h | h | h | h | h <;>
              rw [h] at hI <;>
              simp [vhigh_inc2Rec, vhigh_inc1Rec, vhigh_holdRec, vhigh_dec1Rec, vhigh_pauseRec,
                defaultRec, inputErrorRec] at hI
  · exact calc_invalid_eq data

/-- C9: the returned recommendation has no calculation summary exactly when
it is the input-error result, and the internal-error recommendation is never
returned (the delta computation is total, so the source's except handler is
dead). -/
theorem C9_summary_absent_iff (data : InsulinCalculatorFormData) :
    ((calculate_insulin_adjustment data).calculationSummary = none ↔
      calculate_insulin_adjustment data = inputErrorRec) ∧
    ∀ msg : String,
      calculate_insulin_adjustment data ≠ internalErrorRec data.currentInsulinFlow msg := by
  by_cases hv : data.currentGlucose > 0 ∧ data.previousGlucose > 0 ∧
    data.currentInsulinFlow ≥ 0
  · rcases lt_or_le data.currentGlucose 75 with hg | hg
    · rw [calc_hypo_eq data hv hg]
      exact ⟨by simp [hypoRec, inputErrorRec], by intro msg; simp [hypoRec, internalErrorRec]⟩
    · rcases lt_or_le data.currentGlucose 100 with hg2 | hg2
      · rcases calc_low_cases data hv ⟨hg, hg2⟩ with h | h | h <;> rw [h] <;>
          exact ⟨by simp [low_holdRec, low_dec1Rec, low_pauseRec, inputErrorRec],
            by intro msg; simp [low_holdRec, low_dec1Rec, low_pauseRec, internalErrorRec,
              pauseTitle_eq]⟩
      · rcases lt_or_le data.currentGlucose 140 with hg3 | hg3
        · rcases calc_mid_cases data hv ⟨hg2, hg3⟩ with h | h | h | h | h <;> rw [h] <;>
            exact ⟨by simp [mid_inc1Rec, mid_holdRec, mid_dec1Rec, mid_pauseRec, defaultRec,
                inputErrorRec],
              by intro msg; simp [mid_inc1Rec, mid_holdRec, mid_dec1Rec, mid_pauseRec,
                defaultRec, internalErrorRec, pauseTitle_eq]⟩
        · rcases lt_or_le data.currentGlucose 200 with hg4 | hg4
          · rcases calc_high_cases data hv ⟨hg3, hg4⟩ with h | h | h | h | h | h <;> rw [h] <;>
              exact ⟨by simp [high_inc2Rec, high_inc1Rec, high_holdRec, high_dec1Rec,
                  high_pauseRec, defaultRec, inputErrorRec],
                by intro msg; simp [high_inc2Rec, high_inc1Rec, high_holdRec, high_dec1Rec,
                  high_pauseRec, defaultRec, internalErrorRec, pauseTitle_eq]⟩
          · rcases calc_vhigh_cases data hv hg4 with h | h | h | h | h | h <;> rw [h] <;>
              exact ⟨by simp [vhigh_inc2Rec, vhigh_inc1Rec, vhigh_holdRec, vhigh_dec1Rec,
                  vhigh_pauseRec, defaultRec, inputErrorRec],
                by intro msg; simp [vhigh_inc2Rec, vhigh_inc1Rec, vhigh_holdRec, vhigh_dec1Rec,
                  vhigh_pauseRec, defaultRec, internalErrorRec, pauseTitle_eq]⟩
  · rw [calc_invalid_eq data hv]
    exact ⟨by simp [inputErrorRec], by intro msg; simp [inputErrorRec, internalErrorRec]⟩

/-- C5: for every input passing validation, a single-delta decrease or a
pause-then-double-delta decrease recommends exactly max(0, flow − delta)
(never negative), and an increase recommends exactly flow + delta with no
upper clamp. -/
theorem C5_floor_and_no_cap (data : InsulinCalculatorFormData)
    (hv : data.currentGlucose > 0 ∧ data.previousGlucose > 0 ∧ data.currentInsulinFlow ≥ 0) :
    ((calculate_insulin_adjustment data).actionTitle = "DISMINUIR FLUJO (1 Delta)" →
      (calculate_insulin_adjustment data).newFlowRateInfo =
        FlowRateInfo.newRate (max 0 (data.currentInsulinFlow -
          (get_deltas data.currentInsulinFlow).delta1)) ∧
      0 ≤ max 0 (data.currentInsulinFlow - (get_deltas data.currentInsulinFlow).delta1)) ∧
    ((calculate_insulin_adjustment data).actionTitle = pauseTitle →
      (calculate_insulin_adjustment data).newFlowRateInfo =
        FlowRateInfo.postPause (max 0 (data.currentInsulinFlow -
          (get_deltas data.currentInsulinFlow).delta2)) ∧
      0 ≤ max 0 (data.currentInsulinFlow - (get_deltas data.currentInsulinFlow).delta2)) ∧
    ((calculate_insulin_adjustment data).actionTitle = "AUMENTAR FLUJO (1 Delta)" →
      (calculate_insulin_adjustment data).newFlowRateInfo =
        FlowRateInfo.newRate (data.currentInsulinFlow +
          (get_deltas data.currentInsulinFlow).delta1)) ∧
    ((calculate_insulin_adjustment data).actionTitle = "AUMENTAR FLUJO (2 Deltas)" →
      (calculate_insulin_adjustment data).newFlowRateInfo =
        FlowRateInfo.newRate (data.currentInsulinFlow +
          (get_deltas data.currentInsulinFlow).delta2)) := by
  rcases lt_or_le data.currentGlucose 75 with hg | hg
  · rw [calc_hypo_eq data hv hg]
    simp [hypoRec, pauseTitle_eq, sub_eq_add_neg, le_max_left]
  · rcases lt_or_le data.currentGlucose 100 with hg2 | hg2
    · rcases calc_low_cases data hv ⟨hg, hg2⟩ with h | h | h <;> rw [h] <;>
        simp [low_holdRec, low_dec1Rec, low_pauseRec, pauseTitle_eq, sub_eq_add_neg,
          le_max_left]
    · rcases lt_or_le data.currentGlucose 140 with hg3 | hg3
      · rcases calc_mid_cases data hv ⟨hg2, hg3⟩ with h | h | h | h | h <;> rw [h] <;>
          simp [mid_inc1Rec, mid_holdRec, mid_dec1Rec, mid_pauseRec, defaultRec,
            pauseTitle_eq, sub_eq_add_neg, le_max_left]
      · rcases lt_or_le data.currentGlucose 200 with hg4 | hg4
        · rcases calc_high_cases data hv ⟨hg3, hg4⟩ with h | h | h | h | h | h <;> rw [h] <;>
            simp [high_inc2Rec, high_inc1Rec, high_holdRec, high_dec1Rec, high_pauseRec,
              defaultRec, pauseTitle_eq, sub_eq_add_neg, le_max_left]
        · rcases calc_vhigh_cases data hv hg4 with h | h | h | h | h | h <;> rw [h] <;>
            simp [vhigh_inc2Rec, vhigh_inc1Rec, vhigh_holdRec, vhigh_dec1Rec, vhigh_pauseRec,
              defaultRec, pauseTitle_eq, sub_eq_add_neg, le_max_left]

/-- C5 witness: the spec's worked example, glucose 185 after 170 at flow 4.2
(= 21/5): the single-delta increase branch, whose recommended flow is
4.2 + delta1 with no clamp. -/
theorem C5_witness :
    ((185 : ℚ) > 0 ∧ (170 : ℚ) > 0 ∧ (21/5 : ℚ) ≥ 0) ∧
    ((calculate_insulin_adjustment ⟨185, 170, 21/5⟩).actionTitle = "AUMENTAR FLUJO (1 Delta)" →
      (calculate_insulin_adjustment ⟨185, 170, 21/5⟩).newFlowRateInfo =
        FlowRateInfo.newRate ((21/5 : ℚ) + (get_deltas (21/5)).delta1)) :=
  ⟨by norm_num, (C5_floor_and_no_cap ⟨185, 170, 21/5⟩ (by norm_num)).2.2.1⟩

/-- C7: in the glucose band [75, 100), the three glucose-change
sub-conditions (change > 0; 0 ≥ change > -25; change ≤ -25) are exhaustive
and pairwise non-overlapping over every rational change, and on every valid
input in the band the engine answers with one of the three sub-branch
titles — its generic default is unreachable there. -/
theorem C7_band75_99_exhaustive (x : ℚ) (data : InsulinCalculatorFormData)
    (hv : data.currentGlucose > 0 ∧ data.previousGlucose > 0 ∧ data.currentInsulinFlow ≥ 0)
    (hband : 75 ≤ data.currentGlucose ∧ data.currentGlucose < 100) :
    ((x > 0 ∨ (0 ≥ x ∧ x > -25) ∨ x ≤ -25) ∧
     ¬ (x > 0 ∧ (0 ≥ x ∧ x > -25)) ∧ ¬ (x > 0 ∧ x ≤ -25) ∧
     ¬ ((0 ≥ x ∧ x > -25) ∧ x ≤ -25)) ∧
    ((calculate_insulin_adjustment data).actionTitle = "CONTINUAR SIN CAMBIOS" ∨
     (calculate_insulin_adjustment data).actionTitle = "DISMINUIR FLUJO (1 Delta)" ∨
     (calculate_insulin_adjustment data).actionTitle = pauseTitle) := by
  constructor
  · refine ⟨?_, ?_, ?_, ?_⟩
    · rcases lt_or_le 0 x with h | h
      · exact Or.inl h
      · rcases lt_or_le (-25 : ℚ) x with h2 | h2
        · exact Or.inr (Or.inl ⟨h, h2⟩)
        · exact Or.inr (Or.inr h2)
    · rintro ⟨h1, h2, h3⟩; linarith
    · rintro ⟨h1, h2⟩; linarith
    · rintro ⟨⟨h1, h2⟩, h3⟩; linarith
  · rcases calc_low_cases data hv hband with h | h | h
    · exact Or.inl (by rw [h]; rfl)
    · exact Or.inr (Or.inl (by rw [h]; rfl))
    · exact Or.inr (Or.inr (by rw [h]; rfl))

/-- C7 witness: the trichotomy at change 1 and the band conclusion at
glucose 80 after 90 at flow 5 (the single-delta decrease branch). -/
theorem C7_witness :
    (((80 : ℚ) > 0 ∧ (90 : ℚ) > 0 ∧ (5 : ℚ) ≥ 0) ∧ ((75 : ℚ) ≤ 80 ∧ (80 : ℚ) < 100)) ∧
    (((1 : ℚ) > 0 ∨ ((0 : ℚ) ≥ 1 ∧ (1 : ℚ) > -25) ∨ (1 : ℚ) ≤ -25) ∧
     ¬ ((1 : ℚ) > 0 ∧ ((0 : ℚ) ≥ 1 ∧ (1 : ℚ) > -25)) ∧
     ¬ ((1 : ℚ) > 0 ∧ (1 : ℚ) ≤ -25) ∧
     ¬ (((0 : ℚ) ≥ 1 ∧ (1 : ℚ) > -25) ∧ (1 : ℚ) ≤ -25)) ∧
    ((calculate_insulin_adjustment ⟨80, 90, 5⟩).actionTitle = "CONTINUAR SIN CAMBIOS" ∨
     (calculate_insulin_adjustment ⟨80, 90, 5⟩).actionTitle = "DISMINUIR FLUJO (1 Delta)" ∨
     (calculate_insulin_adjustment ⟨80, 90, 5⟩).actionTitle = pauseTitle) :=
  ⟨⟨by norm_num, by norm_num⟩,
    C7_band75_99_exhaustive 1 ⟨80, 90, 5⟩ (by norm_num) (by norm_num)⟩
